import Mathlib

/-!
# Verification of the Multiagent-RL Pac-Man adapter

Shallow embedding of the repository's in-scope core:
* `messages.py` — the message catalog (tagged records with optional fields);
* `pacman/adapter.py` — `BerkeleyAdapter` (experiment orchestrator) and
  `BerkeleyAdapterAgent` (per-agent adapter for Pac-Man);
* `experiments/pacman/features.py` — feature extractors.

Python integers are modelled as `Int`, Python floats in the feature code as
`ℚ` (the feature logic is exact-equality branching and one division, so the
rational model captures the division-by-zero safety question), Python `None`
as `Option.none`, and exceptions as `Except String`.  `random.randrange` is
modelled as a deterministic function of an externally supplied draw.
-/

namespace Messages

/-! ## messages.py -/

/-- Python `STATE = 'State'` (messages.py line 1). -/
def STATE : String := "State"
/-- Python `ACTION = 'Action'`. -/
def ACTION : String := "Action"
/-- Python `INIT = 'Init'`. -/
def INIT : String := "Init"
/-- Python `SAVE = 'Save'`. -/
def SAVE : String := "Save"
/-- Python `LOAD = 'Load'`. -/
def LOAD : String := "Load"
/-- Python `ACK = 'Ack'`. -/
def ACK : String := "Ack"
/-- Python `REQUEST_BEHAVIOR_COUNT = 'RequestBehaviorCount'`. -/
def REQUEST_BEHAVIOR_COUNT : String := "RequestBehaviorCount"
/-- Python `BEHAVIOR_COUNT = 'BehaviorCount'`. -/
def BEHAVIOR_COUNT : String := "BehaviorCount"

/-- The eight tag constants of messages.py, in source order. -/
def catalogKinds : List String :=
  [STATE, ACTION, INIT, SAVE, LOAD, ACK, REQUEST_BEHAVIOR_COUNT, BEHAVIOR_COUNT]

/-- The eight message classes defined in messages.py (besides `BaseMessage`). -/
def catalogClasses : List String :=
  ["AckMessage", "StateMessage", "ActionMessage", "InitMessage",
   "SaveMessage", "LoadMessage", "RequestBehaviorCountMessage",
   "BehaviorCountMessage"]

/-- Python `BaseMessage.__init__(self, msg_type=None)` stores `msg_type` unchecked. -/
structure BaseMessage where
  msg_type : Option String
deriving Repr, DecidableEq

/-- Python `SaveMessage`: fields `msg_type` (default `SAVE`), `index` (default `None`),
`filename` (default `None`); the constructor just stores them, with no
validation of any field (messages.py lines 48-52). -/
structure SaveMessage where
  msg_type : Option String
  index : Option Int
  filename : Option String
deriving Repr, DecidableEq

/-- Python `SaveMessage.__init__` with every argument at its default: Python runs the
body unconditionally and never raises, so construction is a total function. -/
def mkSaveMessage (msg_type : Option String := some SAVE)
    (index : Option Int := none) (filename : Option String := none) :
    SaveMessage :=
  { msg_type := msg_type, index := index, filename := filename }

/-- Python `LoadMessage` (messages.py lines 55-59): same shape as `SaveMessage`. -/
structure LoadMessage where
  msg_type : Option String
  index : Option Int
  filename : Option String
deriving Repr, DecidableEq

/-- Python `LoadMessage.__init__`. -/
def mkLoadMessage (msg_type : Option String := some LOAD)
    (index : Option Int := none) (filename : Option String := none) :
    LoadMessage :=
  { msg_type := msg_type, index := index, filename := filename }

/-- Spec contract (§6 table): a Save message requires a destination
reference.  Written from the spec's words, to compare against what the
constructor actually enforces. -/
def saveRequiredFieldsPresent (m : SaveMessage) : Bool :=
  m.filename.isSome

end Messages

namespace Features

/-! ## experiments/pacman/features.py -/

/-- The state-snapshot interface consumed by the features: the four getter
methods the feature bodies call.  Their implementations live outside this
file's scope (the learning component); the features are parametric in them. -/
structure FState where
  get_position : Int × Int
  get_agent_position : Nat → Int × Int
  calculate_distance : Int × Int → Int × Int → ℚ
  get_food_distance : ℚ
  get_fragile_agent : Nat → ℚ

/-- Python `a / b`: raises `ZeroDivisionError` when `b == 0`. -/
def pydiv (a b : ℚ) : Except String ℚ :=
  if b = 0 then .error "ZeroDivisionError" else .ok (a / b)

/-- Python `EnemyDistanceFeature.__call__` (features.py lines 39-47): compute the
distance from own position to the enemy's, substitute `1.0` when it is `0.0`,
and return the reciprocal. -/
def enemyDistanceFeature (enemy_id : Nat) (state : FState) : Except String ℚ :=
  let agent_position := state.get_position
  let enemy_position := state.get_agent_position enemy_id
  let distance := state.calculate_distance agent_position enemy_position
  let distance := if distance = 0 then 1 else distance
  pydiv 1 distance

/-- Python `FoodDistanceFeature.__call__` (features.py lines 51-57). -/
def foodDistanceFeature (state : FState) : Except String ℚ :=
  let distance := state.get_food_distance
  let distance := if distance = 0 then 1 else distance
  pydiv 1 distance

end Features

namespace Adapter

/-! ## pacman/adapter.py -/

/-- Python `Directions.NORTH` from the Berkeley engine. -/
def NORTH : String := "North"

/-- The fields of a Berkeley game state that `send_state` reads, via
`getPacmanPosition`, `getGhostPositions`, `getFood`, `data.agentStates`
(scared timers), `getWalls`, `getScore` and `getLegalActions`.  The engine
itself is external; the adapter is parametric in these observations. -/
structure GameState where
  pacmanPosition : Int × Int
  ghostPositions : List (Int × Int)
  food : List (List Bool)
  walls : List (List Bool)
  scaredTimers : List Int
  legalActions : List String
  score : Int
deriving Repr, DecidableEq

/-- The state message the adapter builds on line 409 of adapter.py.  The
`StateMessage` class it instantiates lives in the `messages` module imported
by `pacman/adapter.py` (not part of the catalog file); its field list here is
exactly the keyword arguments of that call, stored as passed.  The spec (§3,
§6) gives the same field list for a State message. -/
structure StateMsg where
  agent_id : Nat
  agent_positions : List (Nat × (Int × Int))
  food_positions : List (Int × Int)
  fragile_agents : List (Nat × ℚ)
  wall_positions : List (Int × Int)
  legal_actions : List String
  reward : Int
  executed_action : String
  test_mode : Bool
deriving Repr, DecidableEq

/-- The mutable attributes of `BerkeleyAdapterAgent`: those assigned in
`__init__` (lines 269-281), the class attribute `noise` (line 267, default
`0`), the index installed by `BerkeleyGameAgent.__init__(self, 0)`, the
agent's score list (`results['scores']`), and `previous_score` /
`previous_action`, which Python first assigns in `_reset_game_data`; every
claim reads them only after `start_game`, so their values at construction
are the reset values. -/
structure AgentState where
  agent_type : String
  agent_class : Option String
  policy : Option String
  game_state : Option GameState
  is_test_mode : Bool
  scores : List Int
  noise : Int
  index : Nat
  previous_score : Int
  previous_action : String
deriving Repr, DecidableEq

/-- Python `BerkeleyAdapterAgent.__init__(agent_type)` (lines 269-281): stores the
agent type without validating it, selects no agent class, starts outside
test mode with an empty score list; `noise` keeps the class default `0`. -/
def berkeleyAdapterAgentInit (agent_type : String) : AgentState :=
  { agent_type := agent_type
    agent_class := none
    policy := none
    game_state := none
    is_test_mode := false
    scores := []
    noise := 0
    index := 0
    previous_score := 0
    previous_action := NORTH }

/-- Python `random.randrange(lo, hi)` draws an integer in `[lo, hi)`,
modelled deterministically from an external draw `r`; meaningful for
`lo < hi` (for an empty range Python raises, a case no claim exercises
since the adapter always calls it with `lo = -noise ≤ 0 < noise + 1 = hi`
for nonnegative noise). -/
def randrange (lo hi : Int) (r : Nat) : Int :=
  lo + Int.ofNat (r % (hi - lo).toNat)

/-- Python `_noise_error` (lines 422-424): `randrange(-noise, noise + 1)`. -/
def noiseError (noise : Int) (r : Nat) : Int :=
  randrange (-noise) (noise + 1) r

/-- Python tuple reversal `pos[::-1]` of a coordinate pair. -/
def rev (p : Int × Int) : Int × Int := (p.2, p.1)

/-- The ghost loop of `send_state` (lines 385-388): ghost `id_` is reported
under key `id_ + 1` at `(pos[::-1][0] + noise_error, pos[::-1][1] +
noise_error)`, one fresh draw per coordinate. -/
def ghostPositionsNoisy (noise : Int) (rng : Nat → Nat) :
    List (Int × Int) → Nat → List (Nat × (Int × Int))
  | [], _ => []
  | pos :: rest, i =>
      (i + 1, ((rev pos).1 + noiseError noise (rng (2 * i)),
               (rev pos).2 + noiseError noise (rng (2 * i + 1)))) ::
        ghostPositionsNoisy noise rng rest (i + 1)

/-- The double enumeration pattern of lines 390-394 and 400-404:
`for x, row: for y, v in row: if v: append((y, x))`. -/
def gridPositions (grid : List (List Bool)) : List (Int × Int) :=
  (grid.enum.map fun xrow =>
    xrow.2.enum.filterMap fun yv =>
      if yv.2 then some ((yv.1 : Int), (xrow.1 : Int)) else none).flatten

/-- Lines 396-398: agent `id_` is fragile (`1.0`) iff its scared timer is
positive. -/
def fragileAgents (timers : List Int) : List (Nat × ℚ) :=
  timers.enum.map fun it => (it.1, if it.2 > 0 then (1 : ℚ) else 0)

/-- Python `BerkeleyAdapterAgent.pacman_index` (line 266). -/
def pacman_index : Nat := 0

/-- Python `send_state` (lines 377-420): build the agent-position map (own position
reversed and exact under key 0, each ghost jittered), the food / fragile /
wall data, compute `reward = current_score - previous_score` via
`_calculate_reward`, update `previous_score`, and build the state message
carrying `test_mode = is_test_mode`.  The channel reply is handled by the
caller. -/
def sendState (a : AgentState) (gs : GameState) (rng : Nat → Nat) :
    AgentState × StateMsg :=
  let agent_positions :=
    (pacman_index, rev gs.pacmanPosition) ::
      ghostPositionsNoisy a.noise rng gs.ghostPositions 0
  let reward := gs.score - a.previous_score
  let a' := { a with previous_score := gs.score }
  (a', { agent_id := a.index
         agent_positions := agent_positions
         food_positions := gridPositions gs.food
         fragile_agents := fragileAgents gs.scaredTimers
         wall_positions := gridPositions gs.walls
         legal_actions := gs.legalActions
         reward := reward
         executed_action := a.previous_action
         test_mode := a.is_test_mode })

/-- Python `getAction` (lines 289-294) with `receive_action` (lines 426-429)
inlined: store the game state, send the state message, take the action from
the replied action message (the responder is the out-of-scope decision
service, modelled as a function), record it as `previous_action` and return
it to the simulator. -/
def getAction (a : AgentState) (gs : GameState) (resp : StateMsg → String)
    (rng : Nat → Nat) : AgentState × String × StateMsg :=
  let a0 := { a with game_state := some gs }
  let (a1, m) := sendState a0 gs rng
  let action := resp m
  ({ a1 with previous_action := action }, action, m)

/-- Python `_reset_game_data` (lines 344-346). -/
def resetGameData (a : AgentState) : AgentState :=
  { a with previous_score := 0, previous_action := NORTH }

/-- Python `start_game` (lines 339-342): reset the per-game data;
`_request_game_start` only sends a `RequestGameStartMessage` and leaves the
agent state unchanged. -/
def startGame (a : AgentState) : AgentState := resetGameData a

/-- Python `enable_test_mode` (lines 438-440): sets the flag, never cleared. -/
def enableTestMode (a : AgentState) : AgentState :=
  { a with is_test_mode := true }

/-- The attribute names ever assigned on a `BerkeleyAdapterAgent` object:
the class attributes (lines 266-267), the `__init__` assignments (lines
272-281), the inherited `index`, the assignments in `_register`,
`_reset_game_data` and `getAction`, and `policy` / `layout` set by
`BerkeleyAdapter.start`.  `pacman` is not among them. -/
def agentAttrNames : List String :=
  ["pacman_index", "noise", "index", "agent_type", "agent_class", "policy",
   "game_state", "is_test_mode", "layout", "results", "previous_score",
   "previous_action"]

/-- A Python attribute access `self.<name>` on the adapter agent:
`AttributeError` unless the attribute has been assigned. -/
def getattrAgent (name : String) : Except String Unit :=
  if name ∈ agentAttrNames then .ok ()
  else .error ("AttributeError: " ++ name)

/-- A Python call of a method with `arity` parameters (beyond `self`) on
`given` arguments: `TypeError` on a mismatch. -/
def callMethod (arity given : Nat) : Except String Unit :=
  if given = arity then .ok () else .error "TypeError"

/-- Python `BerkeleyAdapterAgent._log_behavior_count` (lines 363-375).  Its first
statement after the log is line 365, `self._log_behavior_count(self.pacman)`:
it reads the attribute `pacman`, which is never assigned on this class, and
would then call the zero-parameter method with one argument; either way the
method raises before reaching the `RequestBehaviorCountMessage` code of
lines 367-375 (which in turn reads an unbound name `agent`). -/
def agentLogBehaviorCount : Except String Unit := do
  getattrAgent "pacman"
  callMethod 0 1

/-- Python `finish_game` (lines 356-361): line 358 reads
`self.results['scores'][-1]` (an `IndexError` on an empty list), then for
`agent_type == 'ai'` runs `_log_behavior_count`. -/
def finishGame (a : AgentState) : Except String AgentState := do
  if a.scores.isEmpty then
    .error "IndexError"
  else if a.agent_type = "ai" then do
    agentLogBehaviorCount
    pure a
  else
    pure a

/-- The class-selection chain of `_register` (lines 314-324): the name of
the selected Pac-Man agent class, or the `ValueError` of line 323. -/
def registerAgentClass (agent_type : String) : Except String String :=
  if agent_type = "random" then .ok "RandomPacmanAgent"
  else if agent_type = "random2" then .ok "RandomPacmanAgentTwo"
  else if agent_type = "ai" then .ok "BehaviorLearningPacmanAgent"
  else if agent_type = "eater" then .ok "EaterPacmanAgent"
  else .error "Pac-Man agent must be ai, random, random2 or eater."

/-- Python `_register` (lines 310-328): select the agent class (possibly raising),
store it, then send a `RequestRegisterMessage`. -/
def register (a : AgentState) : Except String AgentState := do
  let cls ← registerAgentClass a.agent_type
  pure { a with agent_class := some cls }

end Adapter

namespace Adapter

/-- One step of `BerkeleyAdapter._log_behavior_count` (lines 148-155) for a
single `(behavior, count)` pair of the reply: create an empty list for a
behavior not yet in the agent's mapping, then append the count.  Python
dicts are insertion-ordered maps with unique keys, modelled as association
lists. -/
def logBehaviorCountStep (m : List (String × List Int)) (bc : String × Int) :
    List (String × List Int) :=
  let m' := if (m.lookup bc.1).isNone then m ++ [(bc.1, [])] else m
  m'.map fun kv => if kv.1 = bc.1 then (kv.1, kv.2 ++ [bc.2]) else kv

/-- Python `BerkeleyAdapter._log_behavior_count` (lines 148-155): fold the reply's
pairs over one agent's behavior mapping. -/
def logBehaviorCount (m : List (String × List Int))
    (behavior_count : List (String × Int)) : List (String × List Int) :=
  behavior_count.foldl logBehaviorCountStep m

/-- The constructor arguments of `BerkeleyAdapter.__init__` that the
validated configuration consists of (lines 58-72), excluding the
communication and display toggles, which cannot fail validation. -/
structure AdapterConfig where
  pacman_agent : String := "random"
  ghost_agent : String := "ai"
  num_ghosts : Int := 3
  noise : Int := 0
  policy_file : Option String := none
  layout_map : String := "classic"
  learn_runs : Int := 100
  test_runs : Int := 15
deriving Repr, DecidableEq

/-- The orchestrator state a successful `BerkeleyAdapter.__init__` leaves
behind.  `learn_scores` / `test_scores` are the two lists of the `results`
dictionary that `start` creates empty (lines 205-209); they are carried
here from the beginning since no claim reads them before `start`. -/
structure AdapterState where
  layout_file : String
  pacman : AgentState
  num_ghosts : Int
  ghost_class : String
  ghosts : List Nat
  policy_file : Option String
  learn_runs : Int
  test_runs : Int
  learn_scores : List Int
  test_scores : List Int
deriving Repr, DecidableEq

/-- Python `LAYOUT_PATH` (line 75). -/
def LAYOUT_PATH : String := "pacman/layouts"

/-- The tail of `BerkeleyAdapter.__init__` after the ghost class has been
selected (lines 98-138): construct one ghost adapter per ghost (their
classes come from the out-of-src `communication` / `agents` modules and are
modelled as always succeeding, ghost `i` getting id `i + 1`), store the
policy file, and `assert` positive learn and test run counts. -/
def berkeleyAdapterInitRest (cfg : AdapterConfig) (layout_file : String)
    (pacman : AgentState) (ghost_class : String) :
    Except String AdapterState :=
  let ghosts := (List.range cfg.num_ghosts.toNat).map (· + 1)
  let policy_file := cfg.policy_file
  if cfg.learn_runs ≤ 0 then
    .error "AssertionError"
  else if cfg.test_runs ≤ 0 then
    .error "AssertionError"
  else
    .ok { layout_file := layout_file
          pacman := pacman
          num_ghosts := cfg.num_ghosts
          ghost_class := ghost_class
          ghosts := ghosts
          policy_file := policy_file
          learn_runs := cfg.learn_runs
          test_runs := cfg.test_runs
          learn_scores := []
          test_scores := [] }

/-- The layout file name the constructor derives (lines 75-77):
`'/'.join(['pacman/layouts', layout_map + str(num_ghosts) + 'Ghosts'])`. -/
def layoutFile (cfg : AdapterConfig) : String :=
  LAYOUT_PATH ++ "/" ++ cfg.layout_map ++ (toString cfg.num_ghosts ++ "Ghosts")

/-- Python `BerkeleyAdapter.__init__` (lines 58-138), in source order: resolve the
layout (the external `getLayout` is abstracted as the predicate `layouts`
over layout file names; `None` means a `ValueError`), construct the Pac-Man
adapter agent (which the Python does just before the ghost-count check; the
construction is total, so passing it on unchanged is equivalent), validate
the ghost count, select the ghost class (or raise), then the rest.  The
`noise` argument is accepted and then never used by the constructor body. -/
def berkeleyAdapterInit (layouts : String → Bool) (cfg : AdapterConfig) :
    Except String AdapterState :=
  if ¬ layouts (layoutFile cfg) then
    .error ("Layout " ++ layoutFile cfg ++ " missing.")
  else if cfg.num_ghosts < 1 ∨ 4 < cfg.num_ghosts then
    .error "Must 1-4 ghost(s)."
  else if cfg.ghost_agent = "random" then
    berkeleyAdapterInitRest cfg (layoutFile cfg)
      (berkeleyAdapterAgentInit cfg.pacman_agent) "RandomGhost"
  else if cfg.ghost_agent = "ai" then
    berkeleyAdapterInitRest cfg (layoutFile cfg)
      (berkeleyAdapterAgentInit cfg.pacman_agent) "BehaviorLearningGhostAgent"
  else
    .error "Ghost agent must be ai or random."

end Adapter

namespace Adapter

/-- One simulated episode, as seen by the Pac-Man adapter: the sequence of
game states at which the Berkeley engine requests an action, and the
terminal state. -/
structure Episode where
  turnStates : List GameState
  finalState : GameState
deriving Repr, DecidableEq

/-- The engine's turn loop: one `getAction` per turn state, collecting the
state messages sent.  `rng t` supplies the noise draws of turn `t`. -/
def runTurns (a : AgentState) (states : List GameState)
    (resp : StateMsg → String) (rng : Nat → Nat → Nat) (t : Nat) :
    AgentState × List StateMsg :=
  match states with
  | [] => (a, [])
  | gs :: rest =>
      let s1 := getAction a gs resp (rng t)
      let s2 := runTurns s1.1 rest resp rng (t + 1)
      (s2.1, s1.2.2 :: s2.2)

/-- Python `_run_game` (lines 157-185), restricted to the Pac-Man agent's side: run
the engine's turn loop, then the extra `self.pacman.getAction` of line 175 on
the terminal state ("Do this so as agents can receive the last reward"), and
return the terminal state's score (line 185).  The ghost-side calls iterate
over `all_agents`, which holds only the ghost adapters (line 111), whose
class is in the out-of-src `agents.py`. -/
def runGame (a : AgentState) (ep : Episode) (resp : StateMsg → String)
    (rng : Nat → Nat → Nat) : AgentState × List StateMsg × Int :=
  let s1 := runTurns a ep.turnStates resp rng 0
  let s2 := getAction s1.1 ep.finalState resp (rng ep.turnStates.length)
  (s2.1, s1.2 ++ [s2.2.2], ep.finalState.score)

/-- One iteration of either loop of `execute` (lines 227-236 and 242-251):
`self.pacman.start_game()`, one `_run_game`, append the score to the
phase-appropriate list of `results` and to the Pac-Man agent's own score
list, then `self.pacman.finish_game()`. -/
def runEpisode (isTest : Bool) (st : AdapterState) (ep : Episode)
    (resp : StateMsg → String) (rng : Nat → Nat → Nat) :
    Except String (AdapterState × List StateMsg) := do
  let a0 := startGame st.pacman
  let r := runGame a0 ep resp rng
  let score := r.2.2
  let st1 :=
    if isTest then { st with test_scores := st.test_scores ++ [score] }
    else { st with learn_scores := st.learn_scores ++ [score] }
  let a2 := { r.1 with scores := r.1.scores ++ [score] }
  let a3 ← finishGame a2
  pure ({ st1 with pacman := a3 }, r.2.1)

/-- Runs `n` successive episodes of one phase, episode numbering starting at `i`;
`env` is the simulator's behaviour for each episode and `rng i t` the noise
draws of turn `t` of episode `i`.  Collects every state message sent. -/
def runPhase (isTest : Bool) (env : Nat → Episode) (resp : StateMsg → String)
    (rng : Nat → Nat → Nat → Nat) :
    Nat → Nat → AdapterState → Except String (AdapterState × List StateMsg)
  | _, 0, st => .ok (st, [])
  | i, n + 1, st => do
      let r1 ← runEpisode isTest st (env i) resp (rng i)
      let r2 ← runPhase isTest env resp rng (i + 1) n r1.1
      pure (r2.1, r1.2 ++ r2.2)

/-- Python `execute` (lines 226-251): the learning loop (`xrange(self.learn_runs)`
iterations), then `enable_test_mode` on the Pac-Man agent — and on every
ghost adapter, lines 239-240, outside this model's scope — then the test
loop.  Returns the final orchestrator state and the state messages of the
learning and of the test phase. -/
def execute (st : AdapterState) (env : Nat → Episode)
    (resp : StateMsg → String) (rng : Nat → Nat → Nat → Nat) :
    Except String (AdapterState × List StateMsg × List StateMsg) := do
  let r1 ← runPhase false env resp rng 0 st.learn_runs.toNat st
  let st2 := { r1.1 with pacman := enableTestMode r1.1.pacman }
  let r2 ← runPhase true env resp rng st.learn_runs.toNat st.test_runs.toNat st2
  pure (r2.1, r1.2, r2.2)

/-- The message classes the adapter instantiates and hands to `communicate`,
in program order over its operations: `_load_policy` (line 307, only when a
policy is set), `_register` (line 326), `_initialize` (line 332),
`_request_game_start` (line 350), `send_state` (line 409), and the
agent-side `_log_behavior_count` (line 367). -/
def adapterMessageClasses : List String :=
  ["PolicyMessage", "RequestRegisterMessage", "RequestInitializationMessage",
   "RequestGameStartMessage", "StateMessage", "RequestBehaviorCountMessage"]

end Adapter

namespace Adapter

/-! ### Concrete evaluation inputs -/

/-- A small concrete game state used to evaluate the embedding. -/
def gameStateW : GameState :=
  { pacmanPosition := (1, 2)
    ghostPositions := [(3, 4)]
    food := [[false, true], [false, false]]
    walls := [[true, false], [false, false]]
    scaredTimers := [0, 1]
    legalActions := [NORTH, "Stop"]
    score := 7 }

/-- An episode with one regular turn plus the terminal `getAction`. -/
def episodeW : Episode := { turnStates := [gameStateW], finalState := gameStateW }

/-- A constant environment: every episode behaves like `episodeW`. -/
def envW : Nat → Episode := fun _ => episodeW

/-- A responder that always answers `Stop`. -/
def respW : StateMsg → String := fun _ => "Stop"

/-- A degenerate random source. -/
def rngW : Nat → Nat → Nat → Nat := fun _ _ _ => 0

/-- An orchestrator state as `start` leaves it for a `random` Pac-Man,
`learn_runs = 3`, `test_runs = 2`. -/
def adapterStateW : AdapterState :=
  { layout_file := "pacman/layouts/classic1Ghosts"
    pacman := berkeleyAdapterAgentInit "random"
    num_ghosts := 1
    ghost_class := "RandomGhost"
    ghosts := [1]
    policy_file := none
    learn_runs := 3
    test_runs := 2
    learn_scores := []
    test_scores := [] }

/-- The same orchestrator state with an `'ai'` Pac-Man and one run each. -/
def adapterStateAI : AdapterState :=
  { adapterStateW with
    pacman := berkeleyAdapterAgentInit "ai"
    learn_runs := 1
    test_runs := 1 }

/-- An `'ai'` adapter agent that has just recorded its first score. -/
def aiAgentWithScore : AgentState :=
  { berkeleyAdapterAgentInit "ai" with scores := [10] }

/-- A `random` adapter agent whose class-level noise is set to `2`. -/
def agentNoise2 : AgentState :=
  { berkeleyAdapterAgentInit "random" with noise := 2 }

/-- A configuration whose ghost count, run counts and layout all pass
validation but whose ghost role is unrecognized. -/
def cfgBadGhostRole : AdapterConfig :=
  { pacman_agent := "random", ghost_agent := "keyboard", num_ghosts := 2,
    noise := 0, policy_file := none, layout_map := "classic",
    learn_runs := 1, test_runs := 1 }

/-- A fully valid configuration carrying a nonzero `noise` argument. -/
def cfgNoise7 : AdapterConfig :=
  { pacman_agent := "random", ghost_agent := "ai", num_ghosts := 3,
    noise := 7, policy_file := none, layout_map := "classic",
    learn_runs := 100, test_runs := 15 }

/-- The orchestrator state `cfgNoise7` constructs. -/
def stNoise7 : AdapterState :=
  (berkeleyAdapterInit (fun _ => true) cfgNoise7).toOption.getD adapterStateW

end Adapter

namespace Features

/-- A concrete feature state: every pairwise distance is `2`, the food
distance is `0`. -/
def fStateW : FState :=
  { get_position := (0, 0)
    get_agent_position := fun _ => (1, 1)
    calculate_distance := fun _ _ => 2
    get_food_distance := 0
    get_fragile_agent := fun _ => 0 }

end Features

namespace Adapter

/-! ### Basic facts about the agent-level operations -/

theorem sendState_fst_is_test_mode (a : AgentState) (gs : GameState)
    (rng : Nat → Nat) : (sendState a gs rng).1.is_test_mode = a.is_test_mode :=
  rfl

theorem sendState_fst_agent_type (a : AgentState) (gs : GameState)
    (rng : Nat → Nat) : (sendState a gs rng).1.agent_type = a.agent_type :=
  rfl

theorem sendState_fst_scores (a : AgentState) (gs : GameState)
    (rng : Nat → Nat) : (sendState a gs rng).1.scores = a.scores :=
  rfl

theorem sendState_msg_test_mode (a : AgentState) (gs : GameState)
    (rng : Nat → Nat) : (sendState a gs rng).2.test_mode = a.is_test_mode :=
  rfl

theorem getAction_fst_is_test_mode (a : AgentState) (gs : GameState)
    (resp : StateMsg → String) (rng : Nat → Nat) :
    (getAction a gs resp rng).1.is_test_mode = a.is_test_mode :=
  rfl

theorem getAction_fst_agent_type (a : AgentState) (gs : GameState)
    (resp : StateMsg → String) (rng : Nat → Nat) :
    (getAction a gs resp rng).1.agent_type = a.agent_type :=
  rfl

theorem getAction_fst_scores (a : AgentState) (gs : GameState)
    (resp : StateMsg → String) (rng : Nat → Nat) :
    (getAction a gs resp rng).1.scores = a.scores :=
  rfl

theorem getAction_msg_test_mode (a : AgentState) (gs : GameState)
    (resp : StateMsg → String) (rng : Nat → Nat) :
    (getAction a gs resp rng).2.2.test_mode = a.is_test_mode :=
  rfl

end Adapter

namespace Adapter

/-- The engine's turn loop neither touches the test-mode flag, the agent
type or the score list, and every message it sends carries the flag the
agent entered the game with. -/
theorem runTurns_spec (states : List GameState) :
    ∀ (a : AgentState) (resp : StateMsg → String) (rng : Nat → Nat → Nat)
      (t : Nat),
      (runTurns a states resp rng t).1.is_test_mode = a.is_test_mode ∧
      (runTurns a states resp rng t).1.agent_type = a.agent_type ∧
      (runTurns a states resp rng t).1.scores = a.scores ∧
      ∀ m ∈ (runTurns a states resp rng t).2, m.test_mode = a.is_test_mode := by
  induction states with
  | nil => intro a resp rng t; simp [runTurns]
  | cons gs rest ih =>
      intro a resp rng t
      obtain ⟨h1, h2, h3, h4⟩ := ih (getAction a gs resp (rng t)).1 resp rng (t + 1)
      refine ⟨?_, ?_, ?_, ?_⟩
      · simpa [runTurns, getAction_fst_is_test_mode] using h1
      · simpa [runTurns, getAction_fst_agent_type] using h2
      · simpa [runTurns, getAction_fst_scores] using h3
      · intro m hm
        simp only [runTurns, List.mem_cons] at hm
        rcases hm with hm | hm
        · subst hm; exact getAction_msg_test_mode a gs resp (rng t)
        · have := h4 m hm
          simpa [getAction_fst_is_test_mode] using this

/-- Python `_run_game` preserves the test-mode flag, the agent type and the score
list of the Pac-Man agent, and every state message of the game (including
the terminal one of line 175) carries the flag the game started with. -/
theorem runGame_spec (a : AgentState) (ep : Episode)
    (resp : StateMsg → String) (rng : Nat → Nat → Nat) :
    (runGame a ep resp rng).1.is_test_mode = a.is_test_mode ∧
    (runGame a ep resp rng).1.agent_type = a.agent_type ∧
    (runGame a ep resp rng).1.scores = a.scores ∧
    (runGame a ep resp rng).2.2 = ep.finalState.score ∧
    ∀ m ∈ (runGame a ep resp rng).2.1, m.test_mode = a.is_test_mode := by
  obtain ⟨h1, h2, h3, h4⟩ := runTurns_spec ep.turnStates a resp rng 0
  refine ⟨?_, ?_, ?_, rfl, ?_⟩
  · simpa [runGame, getAction_fst_is_test_mode] using h1
  · simpa [runGame, getAction_fst_agent_type] using h2
  · simpa [runGame, getAction_fst_scores] using h3
  · intro m hm
    simp only [runGame, List.mem_append, List.mem_singleton] at hm
    rcases hm with hm | hm
    · exact h4 m hm
    · subst hm
      rw [getAction_msg_test_mode]
      exact h1

end Adapter


namespace Adapter

theorem startGame_is_test_mode (a : AgentState) :
    (startGame a).is_test_mode = a.is_test_mode :=
  rfl

theorem startGame_agent_type (a : AgentState) :
    (startGame a).agent_type = a.agent_type :=
  rfl

/-- Python `finish_game` succeeds and leaves the agent unchanged whenever the score
list is nonempty and the agent type is not `'ai'`. -/
theorem finishGame_ok (a : AgentState) (h : a.scores ≠ [])
    (h2 : a.agent_type ≠ "ai") : finishGame a = .ok a := by
  rw [finishGame]
  rw [if_neg (by simp [List.isEmpty_iff, h]), if_neg h2]
  rfl

/-- One loop iteration of `execute` succeeds whenever the Pac-Man agent's
type is not `'ai'` (the `'ai'` case hits the broken agent-side
`_log_behavior_count`): one score is appended to the phase's list, the
other list is untouched, the agent's type and test-mode flag survive, and
every message sent carries the flag the episode started with. -/
theorem runEpisode_ok (isTest : Bool) (st : AdapterState) (ep : Episode)
    (resp : StateMsg → String) (rng : Nat → Nat → Nat)
    (h : st.pacman.agent_type ≠ "ai") :
    ∃ st' msgs, runEpisode isTest st ep resp rng = .ok (st', msgs) ∧
      st'.pacman.agent_type = st.pacman.agent_type ∧
      st'.pacman.is_test_mode = st.pacman.is_test_mode ∧
      st'.learn_scores.length =
        st.learn_scores.length + (if isTest then 0 else 1) ∧
      st'.test_scores.length =
        st.test_scores.length + (if isTest then 1 else 0) ∧
      ∀ m ∈ msgs, m.test_mode = st.pacman.is_test_mode := by
  simp only [runEpisode]
  obtain ⟨h1, h2, h3, h4, h5⟩ :=
    runGame_spec (startGame st.pacman) ep resp rng
  generalize hR : runGame (startGame st.pacman) ep resp rng = R at h1 h2 h3 h4 h5 ⊢
  obtain ⟨a, msgs, score⟩ := R
  simp only at h1 h2 h3 h4 h5
  have hty : a.agent_type = st.pacman.agent_type := by
    rw [h2]; rfl
  have htm : a.is_test_mode = st.pacman.is_test_mode := by
    rw [h1]; rfl
  rw [finishGame_ok { a with scores := a.scores ++ [score] }
    (by simp) (by show a.agent_type ≠ "ai"; rw [hty]; exact h)]
  refine ⟨_, _, rfl, ?_, ?_, ?_, ?_, ?_⟩
  · cases isTest <;> simpa using hty
  · cases isTest <;> simpa using htm
  · cases isTest <;> simp
  · cases isTest <;> simp
  · intro m hm
    have := h5 m hm
    rw [this]
    rfl

end Adapter

namespace Adapter

/-- Python `n` iterations of one phase loop of `execute` succeed whenever the
Pac-Man agent's type is not `'ai'`, appending exactly `n` scores to the
phase's score list and none to the other; the agent's type and test-mode
flag are unchanged and every message sent carries the flag the phase
started with. -/
theorem runPhase_ok (isTest : Bool) (env : Nat → Episode)
    (resp : StateMsg → String) (rng : Nat → Nat → Nat → Nat) :
    ∀ (n i : Nat) (st : AdapterState), st.pacman.agent_type ≠ "ai" →
    ∃ st' msgs, runPhase isTest env resp rng i n st = .ok (st', msgs) ∧
      st'.pacman.agent_type = st.pacman.agent_type ∧
      st'.pacman.is_test_mode = st.pacman.is_test_mode ∧
      st'.learn_scores.length =
        st.learn_scores.length + (if isTest then 0 else n) ∧
      st'.test_scores.length =
        st.test_scores.length + (if isTest then n else 0) ∧
      ∀ m ∈ msgs, m.test_mode = st.pacman.is_test_mode := by
  intro n
  induction n with
  | zero =>
      intro i st hai
      exact ⟨st, [], rfl, rfl, rfl, by simp, by simp, by simp⟩
  | succ k ih =>
      intro i st hai
      obtain ⟨st1, msgs1, he, hty1, htm1, hl1, ht1, hmsg1⟩ :=
        runEpisode_ok isTest st (env i) resp (rng i) hai
      obtain ⟨st2, msgs2, hp, hty2, htm2, hl2, ht2, hmsg2⟩ :=
        ih (i + 1) st1 (by rw [hty1]; exact hai)
      refine ⟨st2, msgs1 ++ msgs2, ?_, ?_, ?_, ?_, ?_, ?_⟩
      · have hun : runPhase isTest env resp rng i (k + 1) st =
            Except.bind (runEpisode isTest st (env i) resp (rng i)) (fun r1 =>
              Except.bind (runPhase isTest env resp rng (i + 1) k r1.1)
                (fun r2 => pure (r2.1, r1.2 ++ r2.2))) := rfl
        rw [hun, he]
        show Except.bind (runPhase isTest env resp rng (i + 1) k st1) _ = _
        rw [hp]
        rfl
      · rw [hty2, hty1]
      · rw [htm2, htm1]
      · rw [hl2, hl1]
        cases isTest <;> simp +arith
      · rw [ht2, ht1]
        cases isTest <;> simp +arith
      · intro m hm
        rcases List.mem_append.mp hm with hm | hm
        · exact hmsg1 m hm
        · rw [hmsg2 m hm, htm1]

end Adapter

namespace Adapter

theorem enableTestMode_agent_type (a : AgentState) :
    (enableTestMode a).agent_type = a.agent_type :=
  rfl

theorem enableTestMode_is_test_mode (a : AgentState) :
    (enableTestMode a).is_test_mode = true :=
  rfl

/-- Claim **C1** (amended): for every experiment with positive `learn_runs` and
`test_runs` whose Pac-Man agent type is not `'ai'` (for `'ai'` the first
`finish_game` raises inside the broken `_log_behavior_count`), starting
from a fresh result state outside test mode, `execute` succeeds, appends
exactly `learn_runs` learning scores and then exactly `test_runs` test
scores, every state message of a learning episode carries
`test_mode = false`, every one of a test episode carries `test_mode = true`,
and the flag — flipped exactly once, between the phases — is still set when
`execute` returns. -/
theorem execute_learn_then_test (st : AdapterState) (env : Nat → Episode)
    (resp : StateMsg → String) (rng : Nat → Nat → Nat → Nat)
    (hai : st.pacman.agent_type ≠ "ai")
    (hlearn : st.learn_scores = []) (htest : st.test_scores = [])
    (hmode : st.pacman.is_test_mode = false)
    (_hpos : 0 < st.learn_runs) (_hpos' : 0 < st.test_runs) :
    ∃ st' lm tm, execute st env resp rng = .ok (st', lm, tm) ∧
      st'.learn_scores.length = st.learn_runs.toNat ∧
      st'.test_scores.length = st.test_runs.toNat ∧
      (∀ m ∈ lm, m.test_mode = false) ∧
      (∀ m ∈ tm, m.test_mode = true) ∧
      st'.pacman.is_test_mode = true := by
  obtain ⟨st1, lm, h1, hty1, htm1, hl1, ht1, hmsg1⟩ :=
    runPhase_ok false env resp rng st.learn_runs.toNat 0 st hai
  have hai2 : ({ st1 with pacman := enableTestMode st1.pacman } :
      AdapterState).pacman.agent_type ≠ "ai" := by
    show (enableTestMode st1.pacman).agent_type ≠ "ai"
    rw [enableTestMode_agent_type, hty1]
    exact hai
  obtain ⟨st3, tm, h2, hty2, htm2, hl2, ht2, hmsg2⟩ :=
    runPhase_ok true env resp rng st.test_runs.toNat st.learn_runs.toNat
      { st1 with pacman := enableTestMode st1.pacman } hai2
  refine ⟨st3, lm, tm, ?_, ?_, ?_, ?_, ?_, ?_⟩
  · have hun : execute st env resp rng =
        Except.bind (runPhase false env resp rng 0 st.learn_runs.toNat st)
          (fun r1 =>
            Except.bind (runPhase true env resp rng st.learn_runs.toNat
                st.test_runs.toNat { r1.1 with pacman := enableTestMode r1.1.pacman })
              (fun r2 => pure (r2.1, r1.2, r2.2))) := rfl
    rw [hun, h1]
    show Except.bind (runPhase true env resp rng st.learn_runs.toNat
        st.test_runs.toNat { st1 with pacman := enableTestMode st1.pacman }) _ = _
    rw [h2]
    rfl
  · rw [hl2]
    show st1.learn_scores.length + _ = _
    rw [hl1, hlearn]
    simp
  · rw [ht2]
    show st1.test_scores.length + _ = _
    rw [ht1, htest]
    simp
  · intro m hm
    rw [hmsg1 m hm, hmode]
  · intro m hm
    rw [hmsg2 m hm]
    rfl
  · rw [htm2]
    rfl

end Adapter

namespace Adapter

/-- A successful `berkeleyAdapterInitRest` passes the agent through
unchanged, leaves the score lists empty and requires positive run counts. -/
theorem berkeleyAdapterInitRest_ok (cfg : AdapterConfig) (lf : String)
    (p : AgentState) (gc : String) (st : AdapterState)
    (h : berkeleyAdapterInitRest cfg lf p gc = .ok st) :
    st.pacman = p ∧ st.learn_scores = [] ∧ st.test_scores = [] ∧
    0 < cfg.learn_runs ∧ 0 < cfg.test_runs ∧
    st.learn_runs = cfg.learn_runs ∧ st.test_runs = cfg.test_runs := by
  rw [berkeleyAdapterInitRest] at h
  split at h
  next => cases h
  next hc =>
    split at h
    next => cases h
    next hc2 =>
      cases h
      exact ⟨rfl, rfl, rfl, by omega, by omega, rfl, rfl⟩

/-- With positive run counts, `berkeleyAdapterInitRest` succeeds. -/
theorem berkeleyAdapterInitRest_success (cfg : AdapterConfig) (lf : String)
    (p : AgentState) (gc : String) (h1 : 0 < cfg.learn_runs)
    (h2 : 0 < cfg.test_runs) :
    ∃ st, berkeleyAdapterInitRest cfg lf p gc = .ok st := by
  rw [berkeleyAdapterInitRest, if_neg (by omega), if_neg (by omega)]
  exact ⟨_, rfl⟩

/-- Everything a successful `BerkeleyAdapter.__init__` guarantees: the
layout resolved, the ghost count is in `[1, 4]`, the run counts are
positive, the ghost role is one of the two supported ones, the Pac-Man
agent is the one freshly constructed from the configured type, and no
score has been recorded yet. -/
theorem berkeleyAdapterInit_ok (layouts : String → Bool)
    (cfg : AdapterConfig) (st : AdapterState)
    (h : berkeleyAdapterInit layouts cfg = .ok st) :
    layouts (layoutFile cfg) = true ∧
    1 ≤ cfg.num_ghosts ∧ cfg.num_ghosts ≤ 4 ∧
    0 < cfg.learn_runs ∧ 0 < cfg.test_runs ∧
    (cfg.ghost_agent = "random" ∨ cfg.ghost_agent = "ai") ∧
    st.pacman = berkeleyAdapterAgentInit cfg.pacman_agent ∧
    st.learn_scores = [] ∧ st.test_scores = [] ∧
    st.learn_runs = cfg.learn_runs ∧ st.test_runs = cfg.test_runs := by
  rw [berkeleyAdapterInit] at h
  split at h
  next => cases h
  next hlay =>
    split at h
    next => cases h
    next hcount =>
      split at h
      next hr =>
        obtain ⟨hp, hl, ht, h4, h5, h6, h7⟩ :=
          berkeleyAdapterInitRest_ok _ _ _ _ _ h
        exact ⟨by simpa using hlay, by omega, by omega, h4, h5, Or.inl hr,
          hp, hl, ht, h6, h7⟩
      next =>
        split at h
        next ha =>
          obtain ⟨hp, hl, ht, h4, h5, h6, h7⟩ :=
            berkeleyAdapterInitRest_ok _ _ _ _ _ h
          exact ⟨by simpa using hlay, by omega, by omega, h4, h5, Or.inr ha,
            hp, hl, ht, h6, h7⟩
        next => cases h

end Adapter

namespace Adapter

/-- Python `random.randrange(-noise, noise + 1)` stays within `[-noise, noise]`
for every draw, whenever `noise` is nonnegative. -/
theorem noiseError_bounds (N : Int) (hN : 0 ≤ N) (r : Nat) :
    -N ≤ noiseError N r ∧ noiseError N r ≤ N := by
  unfold noiseError randrange
  have hpos : 0 < (N + 1 - -N).toNat := by omega
  have hlt : r % (N + 1 - -N).toNat < (N + 1 - -N).toNat := Nat.mod_lt r hpos
  simp only [Int.ofNat_eq_natCast]
  omega

/-- At noise `0`, `_noise_error` returns `0` for every draw. -/
theorem noiseError_zero (r : Nat) : noiseError 0 r = 0 := by
  unfold noiseError randrange
  simp

/-- Entry `i` of the ghost loop's output: ghost `i` of the input list,
reported under key `i0 + i + 1` at its reversed true position jittered by
one `_noise_error` draw per coordinate. -/
theorem ghostPositionsNoisy_getElem? (noise : Int) (rng : Nat → Nat) :
    ∀ (l : List (Int × Int)) (i0 i : Nat),
      (ghostPositionsNoisy noise rng l i0)[i]? =
        l[i]?.map (fun pos =>
          (i0 + i + 1,
           ((rev pos).1 + noiseError noise (rng (2 * (i0 + i))),
            (rev pos).2 + noiseError noise (rng (2 * (i0 + i) + 1))))) := by
  intro l
  induction l with
  | nil =>
      intro i0 i
      simp [ghostPositionsNoisy]
  | cons p rest ih =>
      intro i0 i
      cases i with
      | zero =>
          simp [ghostPositionsNoisy]
      | succ j =>
          simp only [ghostPositionsNoisy, List.getElem?_cons_succ]
          rw [ih (i0 + 1) j]
          simp only [show i0 + 1 + j = i0 + (j + 1) from by omega]

end Adapter

namespace Adapter

/-- At noise `0` the ghost loop reports every ghost exactly at its reversed
true position. -/
theorem ghostPositionsNoisy_zero (rng : Nat → Nat) :
    ∀ (l : List (Int × Int)) (i0 : Nat),
      ghostPositionsNoisy 0 rng l i0 =
        (List.enumFrom i0 l).map (fun ip => (ip.1 + 1, rev ip.2)) := by
  intro l
  induction l with
  | nil => intro i0; simp [ghostPositionsNoisy]
  | cons p rest ih =>
      intro i0
      simp [ghostPositionsNoisy, noiseError_zero, List.enumFrom, ih (i0 + 1)]

end Adapter

/-! ## The claims -/

/-- Claim **C2**: for any two consecutive `send_state` calls within one game, with
game score `s₁` at the first call and `s₂` at the second, the reward of the
state message built on the second call is exactly `s₂ - s₁`, and
`previous_score` is updated to the current score on every call. -/
theorem send_state_reward_consecutive (a : Adapter.AgentState)
    (gs1 gs2 : Adapter.GameState) (r1 r2 : Nat → Nat) :
    ((Adapter.sendState (Adapter.sendState a gs1 r1).1 gs2 r2).2).reward =
      gs2.score - gs1.score ∧
    (Adapter.sendState a gs1 r1).1.previous_score = gs1.score ∧
    (Adapter.sendState (Adapter.sendState a gs1 r1).1 gs2 r2).1.previous_score =
      gs2.score :=
  ⟨rfl, rfl, rfl⟩

/-- Claim **C4** (counterexample): constructing a Save message with no destination
reference is not rejected: `SaveMessage()` runs to completion and yields a
message whose `filename` is absent, violating the spec's required-fields
contract instead of failing as malformed. -/
theorem save_message_missing_filename_accepted :
    Messages.mkSaveMessage =
      { msg_type := some Messages.SAVE, index := none, filename := none } ∧
    Messages.saveRequiredFieldsPresent Messages.mkSaveMessage = false :=
  ⟨rfl, rfl⟩

/-- Claim **C4** (amended): message construction performs no validation at all:
for every payload — including one with the destination reference missing —
the `SaveMessage` constructor succeeds and stores exactly the fields it was
given (missing ones as `None`); nothing rejects the message. -/
theorem message_construction_total (msg_type : Option String)
    (index : Option Int) (filename : Option String) :
    (Messages.mkSaveMessage msg_type index filename).msg_type = msg_type ∧
    (Messages.mkSaveMessage msg_type index filename).index = index ∧
    (Messages.mkSaveMessage msg_type index filename).filename = filename :=
  ⟨rfl, rfl, rfl⟩

/-- Claim **C5** (counterexample): `_register` instantiates
`RequestRegisterMessage`, a message class that is not among the eight
classes of the messages.py catalog, and no catalog kind tags it. -/
theorem request_register_outside_catalog :
    "RequestRegisterMessage" ∈ Adapter.adapterMessageClasses ∧
    "RequestRegisterMessage" ∉ Messages.catalogClasses ∧
    "RequestRegister" ∉ Messages.catalogKinds := by
  refine ⟨by decide, by decide, by decide⟩

/-- Claim **C5** (amended): the catalog does define exactly eight kinds, and
`send_state` / the behavior-count request do use catalog classes, but the
adapter's registration, initialization, game-start and policy messages are
classes outside the catalog, so the adapter's protocol surface is not
closed over the eight catalog kinds. -/
theorem adapter_classes_vs_catalog :
    Messages.catalogKinds.length = 8 ∧
    Adapter.adapterMessageClasses.filter
        (fun c => Messages.catalogClasses.contains c) =
      ["StateMessage", "RequestBehaviorCountMessage"] ∧
    Adapter.adapterMessageClasses.filter
        (fun c => !Messages.catalogClasses.contains c) =
      ["PolicyMessage", "RequestRegisterMessage",
       "RequestInitializationMessage", "RequestGameStartMessage"] := by
  refine ⟨rfl, by decide, by decide⟩

/-- Claim **C8**: the claim describes what `finish_game` should do for a
diagnostics-tracking agent, and the orchestrator-side
`BerkeleyAdapter._log_behavior_count` does implement exactly that append
semantics (shown here on a reply carrying one known and one new label); but
the agent-side `BerkeleyAdapterAgent._log_behavior_count` that
`finish_game` calls for an `'ai'` agent first executes
`self._log_behavior_count(self.pacman)` — reading a never-assigned
attribute and over-applying a zero-parameter method — so it raises before
sending any `RequestBehaviorCount` message. -/
theorem behavior_count_append_and_agent_crash :
    Adapter.finishGame Adapter.aiAgentWithScore =
      .error "AttributeError: pacman" ∧
    Adapter.logBehaviorCount [("flee", [2])] [("flee", 3), ("hunt", 1)] =
      [("flee", [2, 3]), ("hunt", [1])] := by
  refine ⟨rfl, by decide⟩

/-- Claim **C10**: the two distance features are total: the guard replaces a zero
distance by `1.0` before the reciprocal, so a zero distance yields `1.0`, a
positive distance `d` yields `1/d`, and the value is always defined (no
`ZeroDivisionError` is ever raised). -/
theorem distance_features_always_defined (state : Features.FState)
    (enemy_id : Nat) :
    (∃ q, Features.enemyDistanceFeature enemy_id state = .ok q) ∧
    (∃ q, Features.foodDistanceFeature state = .ok q) ∧
    (state.calculate_distance state.get_position
        (state.get_agent_position enemy_id) = 0 →
      Features.enemyDistanceFeature enemy_id state = .ok 1) ∧
    (0 < state.calculate_distance state.get_position
        (state.get_agent_position enemy_id) →
      Features.enemyDistanceFeature enemy_id state =
        .ok (1 / state.calculate_distance state.get_position
          (state.get_agent_position enemy_id))) ∧
    (state.get_food_distance = 0 →
      Features.foodDistanceFeature state = .ok 1) ∧
    (0 < state.get_food_distance →
      Features.foodDistanceFeature state =
        .ok (1 / state.get_food_distance)) := by
  unfold Features.enemyDistanceFeature Features.foodDistanceFeature
    Features.pydiv
  refine ⟨?_, ?_, ?_, ?_, ?_, ?_⟩
  · by_cases h : state.calculate_distance state.get_position
        (state.get_agent_position enemy_id) = 0 <;> simp [h]
  · by_cases h : state.get_food_distance = 0 <;> simp [h]
  · intro h; simp [h]
  · intro h; simp [ne_of_gt h, (ne_of_gt h).symm]
  · intro h; simp [h]
  · intro h; simp [ne_of_gt h, (ne_of_gt h).symm]

/-- Claim **C10** (witness): at a state with enemy distance `2` and food distance
`0`, the features evaluate to `1/2` and `1`. -/
theorem distance_features_always_defined_witness :
    Features.enemyDistanceFeature 1 Features.fStateW = .ok (1 / 2) ∧
    Features.foodDistanceFeature Features.fStateW = .ok 1 :=
  ⟨(distance_features_always_defined Features.fStateW 1).2.2.2.1
     (show (0 : ℚ) < 2 by norm_num),
   (distance_features_always_defined Features.fStateW 1).2.2.2.2.1 rfl⟩

/-- Claim **C3**: for every state message built by `send_state` under a
nonnegative noise magnitude `N`, the reporting agent's own (Pac-Man)
position is reported exactly (offset `0`, under key `0`), and every
reported ghost coordinate is its true (reversed) coordinate plus an
independent per-coordinate error lying within `[-N, N]`, hence within
`[true - N, true + N]` inclusive. -/
theorem reported_positions_within_noise (a : Adapter.AgentState)
    (gs : Adapter.GameState) (rng : Nat → Nat) (hN : 0 ≤ a.noise) :
    ((Adapter.sendState a gs rng).2.agent_positions)[0]? =
      some (Adapter.pacman_index, Adapter.rev gs.pacmanPosition) ∧
    ∀ i, i < gs.ghostPositions.length →
      ∃ (pos : Int × Int) (e1 e2 : Int),
        gs.ghostPositions[i]? = some pos ∧
        ((Adapter.sendState a gs rng).2.agent_positions)[i + 1]? =
          some (i + 1,
            ((Adapter.rev pos).1 + e1, (Adapter.rev pos).2 + e2)) ∧
        -a.noise ≤ e1 ∧ e1 ≤ a.noise ∧ -a.noise ≤ e2 ∧ e2 ≤ a.noise := by
  have hpositions : (Adapter.sendState a gs rng).2.agent_positions =
      (Adapter.pacman_index, Adapter.rev gs.pacmanPosition) ::
        Adapter.ghostPositionsNoisy a.noise rng gs.ghostPositions 0 := rfl
  constructor
  · rw [hpositions, List.getElem?_cons_zero]
  · intro i hi
    obtain ⟨pos, hpos⟩ : ∃ pos, gs.ghostPositions[i]? = some pos :=
      ⟨_, List.getElem?_eq_getElem hi⟩
    refine ⟨pos, Adapter.noiseError a.noise (rng (2 * i)),
      Adapter.noiseError a.noise (rng (2 * i + 1)), hpos, ?_, ?_, ?_, ?_, ?_⟩
    · rw [hpositions, List.getElem?_cons_succ,
        Adapter.ghostPositionsNoisy_getElem?, hpos]
      simp
    · exact (Adapter.noiseError_bounds a.noise hN (rng (2 * i))).1
    · exact (Adapter.noiseError_bounds a.noise hN (rng (2 * i))).2
    · exact (Adapter.noiseError_bounds a.noise hN (rng (2 * i + 1))).1
    · exact (Adapter.noiseError_bounds a.noise hN (rng (2 * i + 1))).2

/-- Claim **C3** (witness): a concrete instantiation at noise `2` with one ghost. -/
theorem reported_positions_within_noise_witness :
    0 ≤ Adapter.agentNoise2.noise ∧
    (((Adapter.sendState Adapter.agentNoise2 Adapter.gameStateW
        (fun n => n)).2.agent_positions)[0]? =
      some (Adapter.pacman_index,
        Adapter.rev Adapter.gameStateW.pacmanPosition) ∧
    ∀ i, i < Adapter.gameStateW.ghostPositions.length →
      ∃ (pos : Int × Int) (e1 e2 : Int),
        Adapter.gameStateW.ghostPositions[i]? = some pos ∧
        ((Adapter.sendState Adapter.agentNoise2 Adapter.gameStateW
            (fun n => n)).2.agent_positions)[i + 1]? =
          some (i + 1,
            ((Adapter.rev pos).1 + e1, (Adapter.rev pos).2 + e2)) ∧
        -Adapter.agentNoise2.noise ≤ e1 ∧ e1 ≤ Adapter.agentNoise2.noise ∧
        -Adapter.agentNoise2.noise ≤ e2 ∧ e2 ≤ Adapter.agentNoise2.noise) :=
  ⟨by decide,
   reported_positions_within_noise Adapter.agentNoise2 Adapter.gameStateW
     (fun n => n) (by decide)⟩

/-- Claim **C9**: the `noise` value accepted by `BerkeleyAdapter.__init__` is
never assigned to the adapter agent, whose class-level `noise` stays at its
default `0` after any successful construction; consequently `_noise_error`
returns `0` for every draw and `send_state` reports every ghost position
exactly, for every configured noise magnitude. -/
theorem noise_parameter_never_applied (layouts : String → Bool)
    (cfg : Adapter.AdapterConfig) (st : Adapter.AdapterState)
    (h : Adapter.berkeleyAdapterInit layouts cfg = .ok st) :
    st.pacman.noise = 0 ∧
    (∀ r, Adapter.noiseError st.pacman.noise r = 0) ∧
    (∀ (gs : Adapter.GameState) (rng : Nat → Nat),
      (Adapter.sendState st.pacman gs rng).2.agent_positions =
        (Adapter.pacman_index, Adapter.rev gs.pacmanPosition) ::
          gs.ghostPositions.enum.map
            (fun ip => (ip.1 + 1, Adapter.rev ip.2))) := by
  obtain ⟨-, -, -, -, -, -, hp, -, -, -, -⟩ :=
    Adapter.berkeleyAdapterInit_ok layouts cfg st h
  have hz : st.pacman.noise = 0 := by rw [hp]; rfl
  refine ⟨hz, fun r => by rw [hz]; exact Adapter.noiseError_zero r,
    fun gs rng => ?_⟩
  have hpositions : (Adapter.sendState st.pacman gs rng).2.agent_positions =
      (Adapter.pacman_index, Adapter.rev gs.pacmanPosition) ::
        Adapter.ghostPositionsNoisy st.pacman.noise rng gs.ghostPositions 0 :=
    rfl
  rw [hpositions, hz, Adapter.ghostPositionsNoisy_zero]
  rfl

/-- Claim **C9** (witness): constructing with `noise = 7` still yields an agent
with noise `0`. -/
theorem noise_parameter_never_applied_witness :
    Adapter.berkeleyAdapterInit (fun _ => true) Adapter.cfgNoise7 =
      .ok Adapter.stNoise7 ∧
    (Adapter.stNoise7.pacman.noise = 0 ∧
    (∀ r, Adapter.noiseError Adapter.stNoise7.pacman.noise r = 0) ∧
    (∀ (gs : Adapter.GameState) (rng : Nat → Nat),
      (Adapter.sendState Adapter.stNoise7.pacman gs rng).2.agent_positions =
        (Adapter.pacman_index, Adapter.rev gs.pacmanPosition) ::
          gs.ghostPositions.enum.map
            (fun ip => (ip.1 + 1, Adapter.rev ip.2)))) :=
  ⟨rfl,
   noise_parameter_never_applied (fun _ => true) Adapter.cfgNoise7
     Adapter.stNoise7 rfl⟩

/-- Claim **C6** (counterexample): a configuration whose layout resolves, whose
ghost count is `2` and whose run counts are positive — all three checks of
the claim pass — still fails construction, because its ghost role
`"keyboard"` is rejected; so passing those checks alone does not make
construction succeed. -/
theorem setup_fails_despite_claimed_checks_passing :
    Adapter.berkeleyAdapterInit (fun _ => true) Adapter.cfgBadGhostRole =
      .error "Ghost agent must be ai or random." :=
  rfl

/-- Claim **C6** (amended): `BerkeleyAdapter.__init__` fails before any episode
runs whenever the ghost count is outside `[1, 4]`, a run count is not
positive, or the layout does not resolve; and when all these checks pass
*and the ghost role is one of the two supported ones*, construction
succeeds with no episode yet run (all score lists empty). -/
theorem setup_validation (layouts : String → Bool)
    (cfg : Adapter.AdapterConfig) :
    ((cfg.num_ghosts < 1 ∨ 4 < cfg.num_ghosts ∨ cfg.learn_runs ≤ 0 ∨
        cfg.test_runs ≤ 0 ∨ layouts (Adapter.layoutFile cfg) = false) →
      ∀ st, Adapter.berkeleyAdapterInit layouts cfg ≠ .ok st) ∧
    (layouts (Adapter.layoutFile cfg) = true →
      1 ≤ cfg.num_ghosts → cfg.num_ghosts ≤ 4 →
      0 < cfg.learn_runs → 0 < cfg.test_runs →
      (cfg.ghost_agent = "random" ∨ cfg.ghost_agent = "ai") →
      ∃ st, Adapter.berkeleyAdapterInit layouts cfg = .ok st ∧
        st.learn_scores = [] ∧ st.test_scores = [] ∧
        st.pacman.scores = []) := by
  constructor
  · intro hbad st hok
    obtain ⟨hlay, h1, h2, h3, h4, -, -, -, -, -, -⟩ :=
      Adapter.berkeleyAdapterInit_ok layouts cfg st hok
    rcases hbad with h | h | h | h | h
    · omega
    · omega
    · omega
    · omega
    · rw [hlay] at h; cases h
  · intro hlay h1 h2 h3 h4 hrole
    rw [Adapter.berkeleyAdapterInit]
    rw [if_neg (by simp [hlay]), if_neg (by omega)]
    rcases hrole with hr | hr
    · rw [if_pos hr]
      obtain ⟨st, hst⟩ := Adapter.berkeleyAdapterInitRest_success cfg
        (Adapter.layoutFile cfg)
        (Adapter.berkeleyAdapterAgentInit cfg.pacman_agent) "RandomGhost" h3 h4
      obtain ⟨hp, hl, ht, -, -, -, -⟩ :=
        Adapter.berkeleyAdapterInitRest_ok _ _ _ _ _ hst
      exact ⟨st, hst, hl, ht, by rw [hp]; rfl⟩
    · rw [if_neg (by rw [hr]; decide), if_pos hr]
      obtain ⟨st, hst⟩ := Adapter.berkeleyAdapterInitRest_success cfg
        (Adapter.layoutFile cfg)
        (Adapter.berkeleyAdapterAgentInit cfg.pacman_agent)
        "BehaviorLearningGhostAgent" h3 h4
      obtain ⟨hp, hl, ht, -, -, -, -⟩ :=
        Adapter.berkeleyAdapterInitRest_ok _ _ _ _ _ hst
      exact ⟨st, hst, hl, ht, by rw [hp]; rfl⟩

/-- Claim **C6** (witness): the amended statement evaluated at a concrete valid
configuration, and the failure direction at a concrete bad ghost count. -/
theorem setup_validation_witness :
    ((fun _ => true : String → Bool) (Adapter.layoutFile Adapter.cfgNoise7) =
        true ∧
      ∃ st, Adapter.berkeleyAdapterInit (fun _ => true) Adapter.cfgNoise7 =
          .ok st ∧
        st.learn_scores = [] ∧ st.test_scores = [] ∧ st.pacman.scores = []) ∧
    ∀ st, Adapter.berkeleyAdapterInit (fun _ => true)
        { Adapter.cfgNoise7 with num_ghosts := 5 } ≠ .ok st :=
  ⟨⟨rfl, (setup_validation (fun _ => true) Adapter.cfgNoise7).2 rfl
      (by decide) (by decide) (by decide) (by decide) (Or.inr rfl)⟩,
   (setup_validation (fun _ => true)
      { Adapter.cfgNoise7 with num_ghosts := 5 }).1 (by right; left; decide)⟩

/-- Claim **C7** (counterexample): `BerkeleyAdapterAgent('bogus')` is constructed
successfully — the constructor stores the unrecognized agent type without
raising — and the `ValueError` only comes later, from `_register` (first
use), so construction does not fail fast on an unrecognized role. -/
theorem agent_construction_accepts_unknown_role :
    (Adapter.berkeleyAdapterAgentInit "bogus").agent_type = "bogus" ∧
    (Adapter.berkeleyAdapterAgentInit "bogus").agent_class = none ∧
    Adapter.register (Adapter.berkeleyAdapterAgentInit "bogus") =
      .error "Pac-Man agent must be ai, random, random2 or eater." :=
  ⟨rfl, rfl, rfl⟩

/-- Claim **C7** (amended): the ghost-side orchestrator does reject an
unrecognized ghost role at construction; the Pac-Man adapter agent instead
accepts any agent type at construction (storing it, with no class selected)
and raises the validation error only at registration, inside
`start_experiment`, before any registration message is sent. -/
theorem role_validation_sites (t : String)
    (ht1 : t ≠ "random") (ht2 : t ≠ "random2") (ht3 : t ≠ "ai")
    (ht4 : t ≠ "eater") (layouts : String → Bool)
    (cfg : Adapter.AdapterConfig) (hg : cfg.ghost_agent = t)
    (hlay : layouts (Adapter.layoutFile cfg) = true)
    (hn1 : 1 ≤ cfg.num_ghosts) (hn2 : cfg.num_ghosts ≤ 4) :
    Adapter.berkeleyAdapterInit layouts cfg =
      .error "Ghost agent must be ai or random." ∧
    (Adapter.berkeleyAdapterAgentInit t).agent_type = t ∧
    (Adapter.berkeleyAdapterAgentInit t).agent_class = none ∧
    Adapter.register (Adapter.berkeleyAdapterAgentInit t) =
      .error "Pac-Man agent must be ai, random, random2 or eater." := by
  refine ⟨?_, rfl, rfl, ?_⟩
  · rw [Adapter.berkeleyAdapterInit]
    rw [if_neg (by simp [hlay]), if_neg (by omega), if_neg (hg ▸ ht1),
      if_neg (hg ▸ ht3)]
  · show Except.bind (Adapter.registerAgentClass t) _ = _
    rw [Adapter.registerAgentClass,
      if_neg ht1, if_neg ht2, if_neg ht3, if_neg ht4]
    rfl

/-- Claim **C7** (witness): the amended statement at the concrete role
`"keyboard"`. -/
theorem role_validation_sites_witness :
    Adapter.berkeleyAdapterInit (fun _ => true) Adapter.cfgBadGhostRole =
      .error "Ghost agent must be ai or random." ∧
    (Adapter.berkeleyAdapterAgentInit "keyboard").agent_type = "keyboard" ∧
    (Adapter.berkeleyAdapterAgentInit "keyboard").agent_class = none ∧
    Adapter.register (Adapter.berkeleyAdapterAgentInit "keyboard") =
      .error "Pac-Man agent must be ai, random, random2 or eater." :=
  role_validation_sites "keyboard" (by decide) (by decide) (by decide)
    (by decide) (fun _ => true) Adapter.cfgBadGhostRole rfl rfl
    (by decide) (by decide)

/-- Claim **C1** (counterexample): with an `'ai'` Pac-Man agent and
`learn_runs = test_runs = 1`, `execute` does not run its episodes to
completion: the very first `finish_game` raises inside the broken
agent-side `_log_behavior_count`, so no experiment with an `'ai'` Pac-Man
satisfies the claim as stated. -/
theorem execute_raises_for_ai_pacman :
    Adapter.execute Adapter.adapterStateAI Adapter.envW Adapter.respW
      Adapter.rngW = .error "AttributeError: pacman" :=
  rfl

/-- Claim **C1** (witness): the amended statement evaluated at a `random` Pac-Man
with `learn_runs = 3`, `test_runs = 2`. -/
theorem execute_learn_then_test_witness :
    Adapter.adapterStateW.pacman.agent_type ≠ "ai" ∧
    0 < Adapter.adapterStateW.learn_runs ∧
    0 < Adapter.adapterStateW.test_runs ∧
    ∃ st' lm tm,
      Adapter.execute Adapter.adapterStateW Adapter.envW Adapter.respW
        Adapter.rngW = .ok (st', lm, tm) ∧
      st'.learn_scores.length = Adapter.adapterStateW.learn_runs.toNat ∧
      st'.test_scores.length = Adapter.adapterStateW.test_runs.toNat ∧
      (∀ m ∈ lm, m.test_mode = false) ∧
      (∀ m ∈ tm, m.test_mode = true) ∧
      st'.pacman.is_test_mode = true :=
  ⟨by decide, by decide, by decide,
   Adapter.execute_learn_then_test Adapter.adapterStateW Adapter.envW
     Adapter.respW Adapter.rngW (by decide) rfl rfl rfl (by decide)
     (by decide)⟩
